import Mathlib

/-!
Verification development for the MCP chatbot (`src/bot/chatbot.py`).

The file shallowly embeds the protocol client (`MCPClient`), the tool
bridge (`convert_tools_for_openai`) and the conversation orchestrator
(`MCPChatBot.process_message`, `run_interactive`, `run_stdio`, `main`) as
executable Lean functions, and proves the specification's claims about
them.  External effects (the child process's stdout, the completion
gateway, `json.loads` on tool-call argument strings) are passed in as
explicit oracle values; the bytes written to the child's stdin and the
number of terminate-and-wait teardowns are kept as ghost logs on the
client state so that wire-format and shutdown claims can be stated.
-/

namespace MCPBot

/-- Parsed JSON values as Python holds them after `json.loads`; `null`
plays the role of Python `None`. -/
inductive Json where
  | null : Json
  | bool : Bool → Json
  | num : Int → Json
  | str : String → Json
  | arr : List Json → Json
  | obj : List (String × Json) → Json

/-- Python dict indexing `d[k]` on a dict built from a JSON object: the
last binding of a repeated key wins; `none` models a `KeyError`. -/
def dictIdx (d : List (String × Json)) (k : String) : Option Json :=
  (d.reverse.find? fun e => e.1 == k).map (fun e => e.2)

/-- Python `d.get(k, dflt)`. -/
def dictGetD (d : List (String × Json)) (k : String) (dflt : Json) : Json :=
  (dictIdx d k).getD dflt

/-- Python `k in d`. -/
def dictMem (d : List (String × Json)) (k : String) : Bool :=
  d.any fun e => e.1 == k

/-- A value read out of a parsed message field: JSON `null` became Python
`None`, which the dataclass stores exactly like an absent field. -/
def pyField : Json → Option Json
  | Json.null => none
  | v => some v

/-- Python `d.get(k)` as stored into an optional dataclass field. -/
def dictGet (d : List (String × Json)) (k : String) : Option Json :=
  match dictIdx d k with
  | some v => pyField v
  | none => none

/-- Python truthiness of a `json.loads` value. -/
def pyTruthy : Json → Bool
  | Json.null => false
  | Json.bool b => b
  | Json.num n => n != 0
  | Json.str s => !s.isEmpty
  | Json.arr l => !l.isEmpty
  | Json.obj l => !l.isEmpty

/-- Truthiness of an optional field (`None` is falsy). -/
def pyTruthyOpt : Option Json → Bool
  | none => false
  | some v => pyTruthy v

mutual

/-- Python `repr` of a `json.loads` value; string escaping inside the
quotes is elided. -/
def pyRepr : Json → String
  | Json.null => "None"
  | Json.bool b => if b then "True" else "False"
  | Json.num n => toString n
  | Json.str s => "\x27" ++ s ++ "\x27"
  | Json.arr l => "[" ++ String.intercalate ", " (pyReprItems l) ++ "]"
  | Json.obj l => "\x7b" ++ String.intercalate ", " (pyReprEntries l) ++ "\x7d"
termination_by v => sizeOf v

/-- `repr` of the elements of a Python list. -/
def pyReprItems : List Json → List String
  | [] => []
  | v :: vs => pyRepr v :: pyReprItems vs
termination_by l => sizeOf l

/-- `repr` of the `key: value` entries of a Python dict. -/
def pyReprEntries : List (String × Json) → List String
  | [] => []
  | (k, v) :: es => ("\x27" ++ k ++ "\x27: " ++ pyRepr v) :: pyReprEntries es
termination_by l => sizeOf l

end

/-- Python `str()` of a `json.loads` value (a top-level string prints
without quotes; everything else prints as its `repr`). -/
def pyStr : Json → String
  | Json.str s => s
  | v => pyRepr v

/-- Python `str()` of an optional value (`None` prints as `None`). -/
def pyStrOpt : Option Json → String
  | none => "None"
  | some v => pyStr v

/-- Indentation prefix used by `json.dumps(..., indent=2)` at a depth. -/
def indentPad (depth : Nat) : String :=
  String.join (List.replicate depth "  ")

mutual

/-- Python `json.dumps(v, indent=2)` rendered at a nesting depth; string
escaping is elided. -/
def dumpsVal (depth : Nat) : Json → String
  | Json.null => "null"
  | Json.bool b => if b then "true" else "false"
  | Json.num n => toString n
  | Json.str s => "\"" ++ s ++ "\""
  | Json.arr [] => "[]"
  | Json.arr (x :: xs) =>
      "[\n" ++ String.intercalate ",\n" (dumpsItems depth (x :: xs)) ++
      "\n" ++ indentPad depth ++ "]"
  | Json.obj [] => "\x7b\x7d"
  | Json.obj (e :: es) =>
      "\x7b\n" ++ String.intercalate ",\n" (dumpsEntries depth (e :: es)) ++
      "\n" ++ indentPad depth ++ "\x7d"
termination_by v => sizeOf v

/-- `json.dumps` lines for the elements of a list nested at a depth. -/
def dumpsItems (depth : Nat) : List Json → List String
  | [] => []
  | v :: vs => (indentPad (depth + 1) ++ dumpsVal (depth + 1) v) :: dumpsItems depth vs
termination_by l => sizeOf l

/-- `json.dumps` lines for the entries of an object nested at a depth. -/
def dumpsEntries (depth : Nat) : List (String × Json) → List String
  | [] => []
  | (k, v) :: es =>
      (indentPad (depth + 1) ++ "\"" ++ k ++ "\": " ++ dumpsVal (depth + 1) v) :: dumpsEntries depth es
termination_by l => sizeOf l

end

/-- `json.dumps(result, indent=2)` as used on a tool-call result, whose
value may be Python `None`. -/
def jsonDumps : Option Json → String
  | none => "null"
  | some v => dumpsVal 0 v

/-- The `MCPMessage` dataclass (chatbot.py lines 180-188): one structure
for Request, Notification and Response, each unused field Python `None`.
`jsonrpc` defaults to the string `"2.0"` but a parsed message can leave it
`None` (a wire line holding `"jsonrpc": null`). -/
structure MCPMessage where
  jsonrpc : Option Json := some (Json.str "2.0")
  id : Option Json := none
  method : Option Json := none
  params : Option Json := none
  result : Option Json := none
  error : Option Json := none

/-- One serialized entry when the field is set, nothing when it is
`None`. -/
def optEntry (k : String) : Option Json → List (String × Json)
  | none => []
  | some v => [(k, v)]

/-- The object written to the wire by `send_request`/`send_notification`:
`{k: v for k, v in message.__dict__.items() if v is not None}` in the
dataclass's field order. -/
def serializeFields (m : MCPMessage) : List (String × Json) :=
  optEntry "jsonrpc" m.jsonrpc ++ optEntry "id" m.id ++ optEntry "method" m.method ++
  optEntry "params" m.params ++ optEntry "result" m.result ++ optEntry "error" m.error

/-- Field lookup on a message by wire name (used to state that the
serializer emits exactly the fields that are set). -/
def MCPMessage.field (m : MCPMessage) (k : String) : Option Json :=
  if k = "jsonrpc" then m.jsonrpc
  else if k = "id" then m.id
  else if k = "method" then m.method
  else if k = "params" then m.params
  else if k = "result" then m.result
  else if k = "error" then m.error
  else none

/-- Outcome of the read side of `send_request` (chatbot.py lines
268-299), up to and including `json.loads`: the 10-second `wait_for`
expired, `readline` hit end of stream, the line stripped to nothing,
`json.loads` raised, or a JSON object was parsed. -/
inductive ReadResult where
  | timeout : ReadResult
  | eof : ReadResult
  | blank : ReadResult
  | malformed : ReadResult
  | parsed : List (String × Json) → ReadResult

/-- The `MCPMessage` a read outcome turns into: every failure outcome is
logged and becomes `None`; a parsed object is loaded field by field with
`response_data.get(...)` (lines 281-294). -/
def parseResponse : ReadResult → Option MCPMessage
  | ReadResult.parsed data =>
      some { jsonrpc := pyField (dictGetD data "jsonrpc" (Json.str "2.0")),
             id := dictGet data "id",
             method := dictGet data "method",
             params := dictGet data "params",
             result := dictGet data "result",
             error := dictGet data "error" }
  | _ => none

/-- The mutable state of an `MCPClient`: the id counter, whether
`self.process` is set, plus two ghost logs — the messages written to the
child's stdin and the number of terminate-and-wait teardowns run. -/
structure ClientState where
  message_id : Nat := 0
  processStarted : Bool := false
  sent : List MCPMessage := []
  stopCount : Nat := 0

namespace MCPClient

/-- `send_request` (lines 251-299): raises if the server has not been
started; otherwise increments the id counter, stamps `str(message_id)`
onto the message when its id is `None`, writes the serialized line, and
returns the parse of the next line read (or `None` on timeout, EOF,
blank or malformed input). -/
def send_request (st : ClientState) (message : MCPMessage) (wire : ReadResult) :
    ClientState × Except String (Option MCPMessage) :=
  if st.processStarted = false then (st, Except.error "MCP server not started")
  else
    let mid := st.message_id + 1
    let message :=
      if message.id.isNone then { message with id := some (Json.str (toString mid)) }
      else message
    ({ st with message_id := mid, sent := st.sent ++ [message] },
     Except.ok (parseResponse wire))

/-- `send_notification` (lines 301-311): raises if the server has not
been started, otherwise writes the serialized line. -/
def send_notification (st : ClientState) (message : MCPMessage) :
    ClientState × Except String Unit :=
  if st.processStarted = false then (st, Except.error "MCP server not started")
  else ({ st with sent := st.sent ++ [message] }, Except.ok ())

/-- Whether the `initialized` notification write raised (for example a
closed pipe); the source catches and logs the failure. -/
inductive NotifyOutcome where
  | ok : NotifyOutcome
  | raises : NotifyOutcome

/-- The `initialize` request built at lines 219-232, carrying
`str(self.message_id)` as its preset id. -/
def init_request (st : ClientState) : MCPMessage :=
  { id := some (Json.str (toString st.message_id)),
    method := some (Json.str "initialize"),
    params := some (Json.obj
      [("protocolVersion", Json.str "2024-11-05"),
       ("capabilities", Json.obj [("tools", Json.obj [])]),
       ("clientInfo", Json.obj
         [("name", Json.str "mcp-chatbot"), ("version", Json.str "1.0.0")])]) }

/-- The `notifications/initialized` notification (lines 240-243). -/
def initialized_notification : MCPMessage :=
  { jsonrpc := some (Json.str "2.0"), method := some (Json.str "notifications/initialized"),
    params := some (Json.obj []) }

/-- `initialize` in the source (lines 216-249), renamed here because the
bare word is reserved: sends the `initialize` request; on a response with
a falsy `error` field it tries to send the `initialized` notification,
swallowing (only logging) any failure, and succeeds; on `None` or a
truthy `error` it raises. -/
def initializeConn (st : ClientState) (wire : ReadResult) (notify : NotifyOutcome) :
    ClientState × Except String Unit :=
  match send_request st (init_request st) wire with
  | (st', Except.error e) => (st', Except.error e)
  | (st', Except.ok response) =>
    match response with
    | some r =>
      if pyTruthyOpt r.error then
        (st', Except.error ("Failed to initialize MCP server: " ++ pyStrOpt r.error))
      else
        -- try: send_notification(...) except Exception: logger.warning(...)
        match notify with
        | NotifyOutcome.ok =>
            ((send_notification st' initialized_notification).1, Except.ok ())
        | NotifyOutcome.raises => (st', Except.ok ())
    | none => (st', Except.error "Failed to initialize MCP server: No response")

/-- `MCPClient.start` (lines 198-214): spawn the child (the flag is the
spawn outcome), then run the handshake; any failure is logged and
re-raised with the spawned process left in place. -/
def start (st : ClientState) (spawnOk : Bool) (wire : ReadResult) (notify : NotifyOutcome) :
    ClientState × Except String Unit :=
  if spawnOk = false then (st, Except.error "Failed to start MCP server")
  else initializeConn { st with processStarted := true } wire notify

/-- The `tools/list` request (lines 315-318); no preset id. -/
def tools_list_request : MCPMessage :=
  { method := some (Json.str "tools/list"), params := some (Json.obj []) }

/-- `list_tools` (lines 313-328): a `tools/list` request; on success the
`tools` entry of the result (an empty list when the result is falsy or
the entry is not a list), on error or no response an empty list. -/
def list_tools (st : ClientState) (wire : ReadResult) :
    ClientState × Except String (List Json) :=
  match send_request st tools_list_request wire with
  | (st', Except.error e) => (st', Except.error e)
  | (st', Except.ok response) =>
    match response with
    | some r =>
      if pyTruthyOpt r.error then (st', Except.ok [])
      else
        (st', Except.ok (match r.result with
          | some res =>
            if pyTruthy res then
              match res with
              | Json.obj d =>
                (match dictGetD d "tools" (Json.arr []) with
                 | Json.arr tools => tools
                 | _ => [])
              | _ => []
            else []
          | none => []))
    | none => (st', Except.ok [])

/-- The `tools/call` request (lines 332-338); no preset id. -/
def tools_call_request (tool_name : String) (arguments : Json) : MCPMessage :=
  { method := some (Json.str "tools/call"),
    params := some (Json.obj [("name", Json.str tool_name), ("arguments", arguments)]) }

/-- `call_tool` (lines 330-346): a `tools/call` request; a truthy
response error or a missing response is turned into the dict
`{"error": str(error_msg)}`, a clean response returns its `result`
payload (possibly Python `None`). -/
def call_tool (st : ClientState) (tool_name : String) (arguments : Json) (wire : ReadResult) :
    ClientState × Except String (Option Json) :=
  match send_request st (tools_call_request tool_name arguments) wire with
  | (st', Except.error e) => (st', Except.error e)
  | (st', Except.ok response) =>
    match response with
    | some r =>
      if pyTruthyOpt r.error then
        (st', Except.ok (some (Json.obj [("error", Json.str (pyStrOpt r.error))])))
      else (st', Except.ok r.result)
    | none => (st', Except.ok (some (Json.obj [("error", Json.str "No response")])))

/-- `MCPClient.stop` (lines 348-353): when a process was spawned,
terminate it and await its exit (counted in the ghost log); without a
process it does nothing. -/
def stop (st : ClientState) : ClientState :=
  if st.processStarted then { st with stopCount := st.stopCount + 1 } else st

end MCPClient

/-- One entry of an assistant message's `tool_calls` list:
`tool_call["function"]["name"]` and the outcome of
`json.loads(tool_call["function"]["arguments"])` — `none` models an
argument string that is not valid JSON, on which `json.loads` raises. -/
structure ToolCall where
  function_name : String
  argumentsParse : Option Json

/-- The assistant message dict taken from `response["choices"][0]
["message"]`: its `content` (possibly `None`) and its `tool_calls` list
(an absent or empty list is the same falsy branch at line 502). -/
structure AssistantMsg where
  content : Option String
  tool_calls : List ToolCall := []

/-- One entry of `self.conversation_history`: the system prompt, a
`{"role": "user", ...}` dict (both genuine user input and the aggregated
tool-results message use this role), or an assistant message dict. -/
inductive ChatMsg where
  | system : String → ChatMsg
  | user : String → ChatMsg
  | assistant : AssistantMsg → ChatMsg

/-- What one `chat_completion` call produced: `LMStudioClient` catches
every transport failure and returns an `{"error": ...}` dict, so the
gateway never raises — it either yields an error string or an assistant
message. -/
inductive GatewayResult where
  | err : String → GatewayResult
  | ok : AssistantMsg → GatewayResult

/-- The external outcomes one `process_message` turn consumes: the first
gateway response, the wire outcome of each `tools/call` in order, and the
follow-up gateway response (used only when tool calls ran). -/
structure TurnOracle where
  resp1 : GatewayResult
  toolWires : List ReadResult := []
  resp2 : GatewayResult := GatewayResult.err ""

/-- Python exceptions that escape `process_message`:
`json.JSONDecodeError` from parsing a tool call's arguments, `KeyError`
from a tool descriptor without a `"name"`, and the `MCPClient` raise
when the server was never started. -/
inductive PyError where
  | jsonDecodeErr : String → PyError
  | keyErr : PyError
  | clientErr : String → PyError

/-- Record of one `chat_completion` invocation: the message list sent and
the `tools` argument (`none` means tools disabled — the `tools` key is
left out of the payload). -/
structure GatewayCall where
  messages : List ChatMsg
  tools : Option (List Json)

/-- The chatbot's state: the protocol client, the tool descriptors
fetched at startup, the conversation, the cumulative
`tools_used_in_conversation` list, and the dynamically added
`_previous_tools` attribute (`getattr` default `[]`), here a proper
field named `previousTools`. -/
structure BotState where
  mcp : ClientState := {}
  available_tools : List Json := []
  conversation_history : List ChatMsg := []
  tools_used_in_conversation : List String := []
  previousTools : List String := []

namespace MCPChatBot

/-- One tool descriptor through the tool bridge (lines 465-477): `name`
is indexed directly (`none` models the `KeyError`/`TypeError` raise),
`description` defaults to the empty string, and `parameters` is added
only when the descriptor has an `inputSchema` key. -/
def convert_tool (tool : Json) : Option Json :=
  match tool with
  | Json.obj d =>
    (dictIdx d "name").map fun nm =>
      let functionFields := [("name", nm), ("description", dictGetD d "description" (Json.str ""))]
      let functionFields :=
        if dictMem d "inputSchema" then
          functionFields ++ [("parameters", dictGetD d "inputSchema" Json.null)]
        else functionFields
      Json.obj [("type", Json.str "function"), ("function", Json.obj functionFields)]
  | _ => none

/-- `convert_tools_for_openai` (lines 462-479): the bridge applied to
every available tool in order. -/
def convert_tools_for_openai (available_tools : List Json) : Option (List Json) :=
  available_tools.mapM convert_tool

/-- The per-tool line of the system prompt (lines 439-446); a descriptor
that is not a dict with a `"name"` is `none` (the raise). -/
def tool_description (tool : Json) : Option String :=
  match tool with
  | Json.obj d =>
    (dictIdx d "name").map fun nm =>
      let desc := "- " ++ pyStr nm ++ ": " ++
        pyStr (dictGetD d "description" (Json.str "No description available"))
      if dictMem d "inputSchema" then
        match dictGetD d "inputSchema" Json.null with
        | Json.obj schema =>
          match dictGetD schema "properties" (Json.obj []) with
          | Json.obj props =>
            if props.isEmpty then desc
            else desc ++ " (Parameters: " ++ String.intercalate ", " (props.map fun p => p.1) ++ ")"
          | _ => desc
        | _ => desc
      else desc
  | _ => none

/-- `create_system_message` (lines 436-460). -/
def create_system_message (tools : List Json) : Option String :=
  (tools.mapM tool_description).map fun tool_descriptions =>
    let tools_text :=
      if tool_descriptions.isEmpty then "No tools available"
      else String.intercalate "\n" tool_descriptions
    "You are an AI assistant with access to MCP (Model Context Protocol) tools. \nYou can use these tools to help answer q`uestions and perform tasks.\n\nAvailable tools:\n" ++
    tools_text ++
    "\n\nWhen you need to use a tool, respond with a function call. The user will execute the tool and provide you with the results.\nBe helpful, accurate, and use the appropriate tools when needed to provide comprehensive answers."

/-- The tool-call loop of `process_message` (lines 504-513): for each
requested call in order, `json.loads` the arguments (raising aborts the
loop and propagates, keeping the client state mutated so far), invoke
`call_tool`, and collect the names used and the result lines. -/
def runToolCalls (mcp : ClientState) (calls : List ToolCall) (wires : List ReadResult) :
    ClientState × Except PyError (List String × List String) :=
  match calls with
  | [] => (mcp, Except.ok ([], []))
  | c :: rest =>
    match c.argumentsParse with
    | none => (mcp, Except.error (PyError.jsonDecodeErr c.function_name))
    | some args =>
      match MCPClient.call_tool mcp c.function_name args (wires.headD ReadResult.timeout) with
      | (mcp1, Except.error e) => (mcp1, Except.error (PyError.clientErr e))
      | (mcp1, Except.ok result) =>
        match runToolCalls mcp1 rest wires.tail with
        | (mcp2, Except.error pe) => (mcp2, Except.error pe)
        | (mcp2, Except.ok (names, lines)) =>
          (mcp2, Except.ok (c.function_name :: names,
            ("Tool " ++ c.function_name ++ " result: " ++ jsonDumps result) :: lines))

/-- `process_message` (lines 481-537); returns the bot state after the
call (mutations to `self` persist even when an exception propagates),
the record of gateway invocations made, and either the returned response
content or the Python exception that escaped. -/
def process_message (bot : BotState) (user_input : String) (o : TurnOracle) :
    BotState × List GatewayCall × Except PyError (Option String) :=
  let bot := { bot with conversation_history := bot.conversation_history ++ [ChatMsg.user user_input] }
  match convert_tools_for_openai bot.available_tools with
  | none => (bot, [], Except.error PyError.keyErr)
  | some openai_tools =>
    -- tools=openai_tools if openai_tools else None
    let toolsArg : Option (List Json) := if openai_tools.isEmpty then none else some openai_tools
    let call1 : GatewayCall := { messages := bot.conversation_history, tools := toolsArg }
    match o.resp1 with
    | GatewayResult.err e => (bot, [call1], Except.ok (some ("Error: " ++ e)))
    | GatewayResult.ok assistant_message =>
      if assistant_message.tool_calls.isEmpty then
        ({ bot with conversation_history := bot.conversation_history ++ [ChatMsg.assistant assistant_message] },
         [call1], Except.ok assistant_message.content)
      else
        match runToolCalls bot.mcp assistant_message.tool_calls o.toolWires with
        | (mcp', Except.error pe) => ({ bot with mcp := mcp' }, [call1], Except.error pe)
        | (mcp', Except.ok (tools_used_this_turn, tool_results)) =>
          let bot := { bot with
            mcp := mcp',
            conversation_history := bot.conversation_history ++
              [ChatMsg.assistant assistant_message,
               ChatMsg.user ("Tool results:\n" ++ String.intercalate "\n" tool_results)] }
          let call2 : GatewayCall := { messages := bot.conversation_history, tools := none }
          match o.resp2 with
          | GatewayResult.err e =>
              (bot, [call1, call2], Except.ok (some ("Error in final response: " ++ e)))
          | GatewayResult.ok final_message =>
              ({ bot with
                 conversation_history := bot.conversation_history ++ [ChatMsg.assistant final_message],
                 tools_used_in_conversation := bot.tools_used_in_conversation ++ tools_used_this_turn },
               [call1, call2], Except.ok final_message.content)

/-- `MCPChatBot.stop` (lines 653-657). -/
def stop (bot : BotState) : BotState :=
  { bot with mcp := MCPClient.stop bot.mcp }

/-- `MCPChatBot.start` (lines 405-434): start the client (spawn plus
handshake), fetch the tool list, and append the system message; any
raise propagates with the state mutated so far. -/
def start (bot : BotState) (spawnOk : Bool) (initWire : ReadResult)
    (notify : MCPClient.NotifyOutcome) (listWire : ReadResult) :
    BotState × Except PyError Unit :=
  match MCPClient.start bot.mcp spawnOk initWire notify with
  | (mcp', Except.error e) => ({ bot with mcp := mcp' }, Except.error (PyError.clientErr e))
  | (mcp', Except.ok ()) =>
    match MCPClient.list_tools mcp' listWire with
    | (mcp2, Except.error e) => ({ bot with mcp := mcp2 }, Except.error (PyError.clientErr e))
    | (mcp2, Except.ok tools) =>
      let bot := { bot with mcp := mcp2, available_tools := tools }
      match create_system_message tools with
      | none => (bot, Except.error PyError.keyErr)
      | some sys =>
        ({ bot with conversation_history := bot.conversation_history ++ [ChatMsg.system sys] },
         Except.ok ())

end MCPChatBot

/-- The per-turn output printed by stdio mode: the
`format_stdio_response` dict (response text, the newly used tools, the
available tool names) or the error dict built from a caught exception
(modelled by the exception value itself). -/
inductive StdioOutput where
  | success : Option String → List String → List String → StdioOutput
  | failure : PyError → StdioOutput

/-- The `tool['name']` projection used for the `tools_available`
metadata; a descriptor without a usable name yields nothing (the raise
there would be caught by the same per-turn handler). -/
def availableToolNames (tools : List Json) : List String :=
  tools.filterMap fun t =>
    match t with
    | Json.obj d =>
      match dictIdx d "name" with
      | some nm => some (pyStr nm)
      | none => none
    | _ => none

/-- One iteration of the stdio loop body (lines 606-646): skip blank
input; otherwise run `process_message`, and either emit the formatted
response — computing `tools_used` as the freshly deduplicated cumulative
list filtered against `_previous_tools`, then updating
`_previous_tools` — or catch the exception and emit the error dict
(`_previous_tools` is not updated on that path).  Python's `list(set(
...))` has unspecified order; it is modelled by `List.dedup`. -/
def run_stdio_turn (bot : BotState) (line : String) (o : TurnOracle) :
    BotState × Option StdioOutput :=
  if line.isEmpty then (bot, none)
  else
    match MCPChatBot.process_message bot line o with
    | (bot', _, Except.ok response) =>
      let current_tools := bot'.tools_used_in_conversation.dedup
      let tools_in_last_turn := current_tools.filter fun t => !bot'.previousTools.contains t
      ({ bot' with previousTools := current_tools },
       some (StdioOutput.success response tools_in_last_turn (availableToolNames bot'.available_tools)))
    | (bot', _, Except.error e) => (bot', some (StdioOutput.failure e))

/-- The stdio loop (lines 600-651) over a finite stream of input lines
ending in EOF; per-turn exceptions are caught inside the loop. -/
def run_stdio_loop (bot : BotState) (turns : List (String × TurnOracle)) :
    BotState × List StdioOutput :=
  match turns with
  | [] => (bot, [])
  | (line, o) :: rest =>
    let (bot', out) := run_stdio_turn bot line o
    let (botF, outs) := run_stdio_loop bot' rest
    (botF, match out with
           | some x => x :: outs
           | none => outs)

/-- `run_stdio` (lines 600-651): the loop wrapped in
`try ... finally: await self.stop()`. -/
def run_stdio (bot : BotState) (turns : List (String × TurnOracle)) :
    BotState × List StdioOutput :=
  let (botF, outs) := run_stdio_loop bot turns
  (MCPChatBot.stop botF, outs)

/-- One event of the interactive loop: a line typed at the prompt
(already stripped), or a `KeyboardInterrupt` raised during the
iteration. -/
inductive InteractiveEvent where
  | line : String → TurnOracle → InteractiveEvent
  | interrupt : InteractiveEvent

/-- `user_input.lower() in ['quit', 'exit', 'bye']`. -/
def isQuitCommand (s : String) : Bool :=
  s.toLower == "quit" || s.toLower == "exit" || s.toLower == "bye"

/-- The interactive `while True` body (lines 551-595): quit commands and
`KeyboardInterrupt` break out; blank input continues; any error from
`process_message` is caught and printed, and the loop continues. -/
def run_interactive_loop (bot : BotState) (events : List InteractiveEvent) : BotState :=
  match events with
  | [] => bot
  | InteractiveEvent.interrupt :: _ => bot
  | InteractiveEvent.line t o :: rest =>
    if isQuitCommand t then bot
    else if t.isEmpty then run_interactive_loop bot rest
    else run_interactive_loop (MCPChatBot.process_message bot t o).1 rest

/-- `run_interactive` (lines 539-598): the loop wrapped in
`try ... finally: await self.stop()`. -/
def run_interactive (bot : BotState) (events : List InteractiveEvent) : BotState :=
  MCPChatBot.stop (run_interactive_loop bot events)

/-- The `--mode` choice. -/
inductive Mode where
  | interactive : Mode
  | stdio : Mode

/-- `main` (lines 659-690) from the point the chatbot exists: run
startup inside `try`; a startup exception is logged and turns into
`sys.exit(1)` without any teardown, while a started chatbot runs its
loop (whose `finally` performs the teardown) and exits 0.  Returns the
final bot state and the process exit code. -/
def main_run (bot0 : BotState) (spawnOk : Bool) (initWire : ReadResult)
    (notify : MCPClient.NotifyOutcome) (listWire : ReadResult) (mode : Mode)
    (events : List InteractiveEvent) (turns : List (String × TurnOracle)) :
    BotState × Nat :=
  match MCPChatBot.start bot0 spawnOk initWire notify listWire with
  | (bot, Except.error _) => (bot, 1)
  | (bot, Except.ok ()) =>
    match mode with
    | Mode.interactive => (run_interactive bot events, 0)
    | Mode.stdio => ((run_stdio bot turns).1, 0)

/-- Whether an `Except` result is a success (a call that returned rather
than raised). -/
def isOkResult {e a : Type} : Except e a → Bool
  | Except.ok _ => true
  | Except.error _ => false

/-- The `parameters` entry of a converted function-call schema (`none`
when the `function` object has no such key). -/
def functionParameters (schema : Json) : Option Json :=
  match schema with
  | Json.obj fields =>
    match dictIdx fields "function" with
    | some (Json.obj f) => dictIdx f "parameters"
    | _ => none
  | _ => none

/-- A freshly started client (spawned child, no traffic yet), used by
the concrete example runs below. -/
def exClient : ClientState := { processStarted := true }

/-- A chatbot whose client is started and whose tool list is empty, used
by the concrete example runs below. -/
def exBot : BotState := { mcp := exClient }

/-- A turn oracle whose first gateway response requests one `echo` tool
call carrying an unparsable argument payload. -/
def exBadParseOracle : TurnOracle :=
  { resp1 := GatewayResult.ok { content := none, tool_calls := [{ function_name := "echo", argumentsParse := none }] } }

/-- The string ids of the Requests in a wire log, in send order
(notifications carry no id and are skipped; the source only ever
assigns string ids). -/
def sentRequestIds (st : ClientState) : List String :=
  st.sent.filterMap fun m =>
    match m.id with
    | some (Json.str s) => some s
    | _ => none

/-- One protocol operation issued after the handshake: the only request
senders in the source are `list_tools` and `call_tool`. -/
inductive ClientOp where
  | listTools : ReadResult → ClientOp
  | callTool : String → Json → ReadResult → ClientOp

/-- Run a sequence of client operations, threading the client state. -/
def runOps (st : ClientState) : List ClientOp → ClientState
  | [] => st
  | ClientOp.listTools w :: rest => runOps (MCPClient.list_tools st w).1 rest
  | ClientOp.callTool n a w :: rest => runOps (MCPClient.call_tool st n a w).1 rest

/-- An assistant message requesting exactly one tool call with a
parsable argument payload. -/
def singleCallAssistant (content1 : Option String) (nm : String) (args : Json) : AssistantMsg :=
  { content := content1, tool_calls := [{ function_name := nm, argumentsParse := some args }] }

/-- A turn oracle whose first gateway response requests exactly one tool
call (with a parsable argument payload), whose wire read for it is `w`,
and whose follow-up gateway response is `fm`. -/
def singleCallOracle (content1 : Option String) (nm : String) (args : Json) (w : ReadResult)
    (fm : AssistantMsg) : TurnOracle :=
  { resp1 := GatewayResult.ok (singleCallAssistant content1 nm args),
    toolWires := [w],
    resp2 := GatewayResult.ok fm }

/-! Basic lemmas about the protocol client. -/

/-- On a started client, `send_request` increments the id counter,
appends the (possibly id-stamped) message to the wire log and returns
the parse of the line read. -/
theorem send_request_of_started (st : ClientState) (m : MCPMessage) (w : ReadResult)
    (h : st.processStarted = true) :
    MCPClient.send_request st m w =
      ({ st with
          message_id := st.message_id + 1,
          sent := st.sent ++
            [if m.id.isNone then { m with id := some (Json.str (toString (st.message_id + 1))) }
             else m] },
       Except.ok (parseResponse w)) := by
  unfold MCPClient.send_request
  simp [h]

/-- `send_request` never touches the started flag or the teardown
count. -/
theorem send_request_frame (st : ClientState) (m : MCPMessage) (w : ReadResult) :
    (MCPClient.send_request st m w).1.processStarted = st.processStarted ∧
    (MCPClient.send_request st m w).1.stopCount = st.stopCount := by
  unfold MCPClient.send_request
  by_cases h : st.processStarted = false <;> simp [h]

/-- `call_tool` never touches the started flag or the teardown count. -/
theorem call_tool_frame (st : ClientState) (n : String) (a : Json) (w : ReadResult) :
    (MCPClient.call_tool st n a w).1.processStarted = st.processStarted ∧
    (MCPClient.call_tool st n a w).1.stopCount = st.stopCount := by
  unfold MCPClient.call_tool
  rcases hsr : MCPClient.send_request st (MCPClient.tools_call_request n a) w with ⟨st', r⟩
  have hf := send_request_frame st (MCPClient.tools_call_request n a) w
  rw [hsr] at hf
  rcases r with e | resp
  · exact hf
  · rcases resp with _ | msg
    · exact hf
    · by_cases he : pyTruthyOpt msg.error = true <;> simp [he] <;> exact hf

/-- `list_tools` never touches the started flag or the teardown count. -/
theorem list_tools_frame (st : ClientState) (w : ReadResult) :
    (MCPClient.list_tools st w).1.processStarted = st.processStarted ∧
    (MCPClient.list_tools st w).1.stopCount = st.stopCount := by
  unfold MCPClient.list_tools
  rcases hsr : MCPClient.send_request st MCPClient.tools_list_request w with ⟨st', r⟩
  have hf := send_request_frame st MCPClient.tools_list_request w
  rw [hsr] at hf
  rcases r with e | resp
  · exact hf
  · rcases resp with _ | msg
    · exact hf
    · by_cases he : pyTruthyOpt msg.error = true <;> simp [he] <;> exact hf

/-- `send_notification` never touches the started flag or the teardown
count. -/
theorem send_notification_frame (st : ClientState) (m : MCPMessage) :
    (MCPClient.send_notification st m).1.processStarted = st.processStarted ∧
    (MCPClient.send_notification st m).1.stopCount = st.stopCount := by
  unfold MCPClient.send_notification
  by_cases h : st.processStarted = false <;> simp [h]

/-- The handshake never touches the started flag or the teardown
count. -/
theorem initializeConn_frame (st : ClientState) (w : ReadResult) (n : MCPClient.NotifyOutcome) :
    (MCPClient.initializeConn st w n).1.processStarted = st.processStarted ∧
    (MCPClient.initializeConn st w n).1.stopCount = st.stopCount := by
  unfold MCPClient.initializeConn
  rcases hsr : MCPClient.send_request st (MCPClient.init_request st) w with ⟨st', r⟩
  have hf := send_request_frame st (MCPClient.init_request st) w
  rw [hsr] at hf
  rcases r with e | resp
  · exact hf
  · rcases resp with _ | msg
    · exact hf
    · by_cases he : pyTruthyOpt msg.error = true
      · simp [he]
        exact hf
      · cases n with
        | ok =>
          simp [he]
          have hn := send_notification_frame st' MCPClient.initialized_notification
          exact ⟨hn.1.trans hf.1, hn.2.trans hf.2⟩
        | raises =>
          simp [he]
          exact hf

/-- `MCPClient.start` never touches the teardown count, and on success
the process is spawned. -/
theorem client_start_stopCount (st : ClientState) (sp : Bool) (w : ReadResult)
    (n : MCPClient.NotifyOutcome) :
    (MCPClient.start st sp w n).1.stopCount = st.stopCount := by
  unfold MCPClient.start
  cases sp with
  | false => simp
  | true =>
    simp only [Bool.true_eq_false, if_false]
    exact (initializeConn_frame { st with processStarted := true } w n).2

/-- A successful `MCPClient.start` leaves `self.process` set. -/
theorem client_start_ok_started (st : ClientState) (sp : Bool) (w : ReadResult)
    (n : MCPClient.NotifyOutcome) (h : (MCPClient.start st sp w n).2 = Except.ok ()) :
    (MCPClient.start st sp w n).1.processStarted = true := by
  unfold MCPClient.start at h ⊢
  cases sp with
  | false => simp at h
  | true =>
    simp only [Bool.true_eq_false, if_false]
    exact (initializeConn_frame { st with processStarted := true } w n).1

/-- The tool-call loop never touches the started flag or the teardown
count. -/
theorem runToolCalls_frame (calls : List ToolCall) :
    ∀ (mcp : ClientState) (wires : List ReadResult),
      (MCPChatBot.runToolCalls mcp calls wires).1.processStarted = mcp.processStarted ∧
      (MCPChatBot.runToolCalls mcp calls wires).1.stopCount = mcp.stopCount := by
  induction calls with
  | nil =>
    intro mcp wires
    simp [MCPChatBot.runToolCalls]
  | cons c rest ih =>
    intro mcp wires
    simp only [MCPChatBot.runToolCalls]
    rcases hc : c.argumentsParse with _ | args
    · simp
    · dsimp only
      rcases hct : MCPClient.call_tool mcp c.function_name args (wires.headD ReadResult.timeout)
        with ⟨mcp1, r1⟩
      have hf1 := call_tool_frame mcp c.function_name args (wires.headD ReadResult.timeout)
      rw [hct] at hf1
      rcases r1 with e | result
      · exact hf1
      · dsimp only
        rcases hrt : MCPChatBot.runToolCalls mcp1 rest wires.tail with ⟨mcp2, r2⟩
        have hf2 := ih mcp1 wires.tail
        rw [hrt] at hf2
        rcases r2 with pe | pair
        · exact ⟨hf2.1.trans hf1.1, hf2.2.trans hf1.2⟩
        · rcases pair with ⟨names, lines⟩
          exact ⟨hf2.1.trans hf1.1, hf2.2.trans hf1.2⟩

/-- A conversation turn never touches the started flag or the teardown
count of the protocol client. -/
theorem process_message_frame (bot : BotState) (input : String) (o : TurnOracle) :
    (MCPChatBot.process_message bot input o).1.mcp.processStarted = bot.mcp.processStarted ∧
    (MCPChatBot.process_message bot input o).1.mcp.stopCount = bot.mcp.stopCount := by
  simp only [MCPChatBot.process_message]
  rcases hconv : MCPChatBot.convert_tools_for_openai bot.available_tools with _ | ts
  · simp
  · dsimp only
    rcases hr1 : o.resp1 with e | a
    · simp
    · dsimp only
      by_cases hemp : a.tool_calls.isEmpty = true
      · simp [hemp]
      · simp only [hemp, Bool.false_eq_true, if_false]
        rcases hrt : MCPChatBot.runToolCalls bot.mcp a.tool_calls o.toolWires with ⟨mcp', r⟩
        have hf := runToolCalls_frame a.tool_calls bot.mcp o.toolWires
        rw [hrt] at hf
        rcases r with pe | pair
        · exact hf
        · rcases pair with ⟨names, lines⟩
          dsimp only
          rcases hr2 : o.resp2 with e2 | fm
          · exact hf
          · exact hf

/-- The chatbot-level teardown delegates to the client teardown. -/
theorem chatbot_stop_mcp (b : BotState) : (MCPChatBot.stop b).mcp = MCPClient.stop b.mcp := rfl

/-- The effect of `MCPClient.stop` on the teardown count. -/
theorem stop_stopCount (st : ClientState) :
    (MCPClient.stop st).stopCount =
      if st.processStarted then st.stopCount + 1 else st.stopCount := by
  unfold MCPClient.stop
  split <;> rfl

/-- One stdio iteration never touches the started flag or the teardown
count. -/
theorem run_stdio_turn_frame (bot : BotState) (line : String) (o : TurnOracle) :
    (run_stdio_turn bot line o).1.mcp.processStarted = bot.mcp.processStarted ∧
    (run_stdio_turn bot line o).1.mcp.stopCount = bot.mcp.stopCount := by
  unfold run_stdio_turn
  by_cases hl : line.isEmpty = true
  · simp [hl]
  · simp only [hl, Bool.false_eq_true, if_false]
    rcases hpm : MCPChatBot.process_message bot line o with ⟨bot', gw, r⟩
    have hf := process_message_frame bot line o
    rw [hpm] at hf
    rcases r with e | resp
    · exact hf
    · exact hf

/-- The stdio loop never touches the started flag or the teardown
count. -/
theorem run_stdio_loop_frame (turns : List (String × TurnOracle)) :
    ∀ bot : BotState,
      (run_stdio_loop bot turns).1.mcp.processStarted = bot.mcp.processStarted ∧
      (run_stdio_loop bot turns).1.mcp.stopCount = bot.mcp.stopCount := by
  induction turns with
  | nil =>
    intro bot
    simp [run_stdio_loop]
  | cons t rest ih =>
    intro bot
    rcases t with ⟨line, o⟩
    simp only [run_stdio_loop]
    rcases ht : run_stdio_turn bot line o with ⟨bot', out⟩
    have hf := run_stdio_turn_frame bot line o
    rw [ht] at hf
    dsimp only
    rcases hl : run_stdio_loop bot' rest with ⟨botF, outs⟩
    have hf2 := ih bot'
    rw [hl] at hf2
    rcases out with _ | x <;>
      exact ⟨hf2.1.trans hf.1, hf2.2.trans hf.2⟩

/-- The interactive loop never touches the started flag or the teardown
count. -/
theorem run_interactive_loop_frame (events : List InteractiveEvent) :
    ∀ bot : BotState,
      (run_interactive_loop bot events).mcp.processStarted = bot.mcp.processStarted ∧
      (run_interactive_loop bot events).mcp.stopCount = bot.mcp.stopCount := by
  induction events with
  | nil =>
    intro bot
    exact ⟨rfl, rfl⟩
  | cons e rest ih =>
    intro bot
    rcases e with ⟨t, o⟩ | _
    · by_cases hq : isQuitCommand t = true
      · simp [run_interactive_loop, hq]
      · by_cases he : t.isEmpty = true
        · simp only [run_interactive_loop, hq, Bool.false_eq_true, if_false, he, if_true]
          exact ih bot
        · simp only [run_interactive_loop, hq, Bool.false_eq_true, if_false, he]
          rcases hpm : MCPChatBot.process_message bot t o with ⟨bot', gw, r⟩
          have hf := process_message_frame bot t o
          rw [hpm] at hf
          have h2 := ih bot'
          exact ⟨h2.1.trans hf.1, h2.2.trans hf.2⟩
    · simp [run_interactive_loop]

/-- Startup never touches the teardown count. -/
theorem chatbot_start_stopCount (bot : BotState) (sp : Bool) (w : ReadResult)
    (n : MCPClient.NotifyOutcome) (lw : ReadResult) :
    (MCPChatBot.start bot sp w n lw).1.mcp.stopCount = bot.mcp.stopCount := by
  unfold MCPChatBot.start
  rcases hcs : MCPClient.start bot.mcp sp w n with ⟨mcp', r⟩
  have h1 := client_start_stopCount bot.mcp sp w n
  rw [hcs] at h1
  rcases r with e | u
  · exact h1
  · dsimp only
    rcases hlt : MCPClient.list_tools mcp' lw with ⟨mcp2, r2⟩
    have h2 := list_tools_frame mcp' lw
    rw [hlt] at h2
    rcases r2 with e2 | tools
    · exact h2.2.trans h1
    · dsimp only
      rcases hsm : MCPChatBot.create_system_message tools with _ | sys
      · exact h2.2.trans h1
      · exact h2.2.trans h1

/-- After a successful startup `self.process` is set. -/
theorem chatbot_start_ok_started (bot : BotState) (sp : Bool) (w : ReadResult)
    (n : MCPClient.NotifyOutcome) (lw : ReadResult)
    (h : (MCPChatBot.start bot sp w n lw).2 = Except.ok ()) :
    (MCPChatBot.start bot sp w n lw).1.mcp.processStarted = true := by
  unfold MCPChatBot.start at h ⊢
  rcases hcs : MCPClient.start bot.mcp sp w n with ⟨mcp', r⟩
  rw [hcs] at h
  have hstarted : mcp'.processStarted = true := by
    rcases r with e | u
    · simp at h
    · have := client_start_ok_started bot.mcp sp w n (by rw [hcs])
      rw [hcs] at this
      exact this
  rcases r with e | u
  · simp at h
  · dsimp only at h ⊢
    rcases hlt : MCPClient.list_tools mcp' lw with ⟨mcp2, r2⟩
    have h2 := list_tools_frame mcp' lw
    rw [hlt] at h2
    rw [hlt] at h
    rcases r2 with e2 | tools
    · simp at h
    · dsimp only at h ⊢
      rcases hsm : MCPChatBot.create_system_message tools with _ | sys
      · rw [hsm] at h
        simp at h
      · exact h2.1.trans hstarted

/-- On a started client `call_tool` never raises: it returns some result
value, with the id counter advanced by one and the stamped `tools/call`
request appended to the wire log. -/
theorem call_tool_of_started (st : ClientState) (n : String) (a : Json) (w : ReadResult)
    (h : st.processStarted = true) :
    ∃ st' res, MCPClient.call_tool st n a w = (st', Except.ok res) ∧
      st'.processStarted = st.processStarted ∧ st'.stopCount = st.stopCount ∧
      st'.message_id = st.message_id + 1 ∧
      st'.sent = st.sent ++
        [{ MCPClient.tools_call_request n a with
            id := some (Json.str (toString (st.message_id + 1))) }] := by
  unfold MCPClient.call_tool
  rw [send_request_of_started st (MCPClient.tools_call_request n a) w h]
  dsimp only
  rcases hp : parseResponse w with _ | msg
  · exact ⟨_, _, rfl, rfl, rfl, rfl, rfl⟩
  · dsimp only
    by_cases he : pyTruthyOpt msg.error = true
    · rw [if_pos he]
      exact ⟨_, _, rfl, rfl, rfl, rfl, rfl⟩
    · rw [if_neg he]
      exact ⟨_, _, rfl, rfl, rfl, rfl, rfl⟩

/-- When every tool call before `bad` has parsable arguments and `bad`
does not, the tool-call loop raises `json.JSONDecodeError` at `bad`. -/
theorem runToolCalls_parse_error (pre : List ToolCall) :
    ∀ (mcp : ClientState) (wires : List ReadResult) (bad : ToolCall) (rest : List ToolCall),
      (∀ c ∈ pre, c.argumentsParse.isSome) → bad.argumentsParse = none →
      mcp.processStarted = true →
      (MCPChatBot.runToolCalls mcp (pre ++ bad :: rest) wires).2 =
        Except.error (PyError.jsonDecodeErr bad.function_name) := by
  induction pre with
  | nil =>
    intro mcp wires bad rest _ hbad _
    simp only [List.nil_append, MCPChatBot.runToolCalls]
    rw [hbad]
  | cons c pre' ih =>
    intro mcp wires bad rest hpre hbad hs
    obtain ⟨args, hargs⟩ : ∃ v, c.argumentsParse = some v := by
      rcases hc : c.argumentsParse with _ | v
      · have := hpre c (by simp)
        rw [hc] at this
        simp at this
      · exact ⟨v, rfl⟩
    simp only [List.cons_append, MCPChatBot.runToolCalls]
    rw [hargs]
    dsimp only
    obtain ⟨st1, res, hct, hps, _, _, _⟩ := call_tool_of_started mcp c.function_name args
      (wires.headD ReadResult.timeout) hs
    rw [hct]
    dsimp only
    rcases hrt : MCPChatBot.runToolCalls st1 (pre' ++ bad :: rest) wires.tail with ⟨mcp2, r2⟩
    have herr := ih st1 wires.tail bad rest (fun d hd => hpre d (by simp [hd])) hbad
      (hps.trans hs)
    rw [hrt] at herr
    have hr2 : r2 = Except.error (PyError.jsonDecodeErr bad.function_name) := herr
    subst hr2
    rfl

/-- `call_tool` threads exactly the state produced by its
`send_request`. -/
theorem call_tool_fst (st : ClientState) (n : String) (a : Json) (w : ReadResult) :
    (MCPClient.call_tool st n a w).1 =
      (MCPClient.send_request st (MCPClient.tools_call_request n a) w).1 := by
  unfold MCPClient.call_tool
  rcases hsr : MCPClient.send_request st (MCPClient.tools_call_request n a) w with ⟨st', r⟩
  rcases r with e | resp
  · rfl
  · rcases resp with _ | msg
    · rfl
    · dsimp only
      split <;> rfl

/-- `list_tools` threads exactly the state produced by its
`send_request`. -/
theorem list_tools_fst (st : ClientState) (w : ReadResult) :
    (MCPClient.list_tools st w).1 =
      (MCPClient.send_request st MCPClient.tools_list_request w).1 := by
  unfold MCPClient.list_tools
  rcases hsr : MCPClient.send_request st MCPClient.tools_list_request w with ⟨st', r⟩
  rcases r with e | resp
  · rfl
  · rcases resp with _ | msg
    · rfl
    · dsimp only
      split <;> rfl

/-- Sending a request without a preset id on a started client appends
the decimal encoding of the incremented counter to the wire log. -/
theorem send_request_ids_step (st : ClientState) (m : MCPMessage) (w : ReadResult)
    (hid : m.id = none) (hs : st.processStarted = true) :
    sentRequestIds (MCPClient.send_request st m w).1 =
      sentRequestIds st ++ [toString (st.message_id + 1)] ∧
    (MCPClient.send_request st m w).1.message_id = st.message_id + 1 ∧
    (MCPClient.send_request st m w).1.processStarted = true := by
  rw [send_request_of_started st m w hs]
  refine ⟨?_, rfl, hs⟩
  simp [sentRequestIds, List.filterMap_append, hid]

/-- The handshake from a fresh client logs exactly one Request id, the
encoding of 0, and leaves the counter at 1 on a started client. -/
theorem initializeConn_ids (w : ReadResult) (n : MCPClient.NotifyOutcome) :
    sentRequestIds (MCPClient.initializeConn exClient w n).1 = [toString 0] ∧
    (MCPClient.initializeConn exClient w n).1.message_id = 1 ∧
    (MCPClient.initializeConn exClient w n).1.processStarted = true := by
  unfold MCPClient.initializeConn
  rw [send_request_of_started exClient (MCPClient.init_request exClient) w rfl]
  dsimp only
  rcases hp : parseResponse w with _ | msg
  · exact ⟨rfl, rfl, rfl⟩
  · dsimp only
    by_cases he : pyTruthyOpt msg.error = true
    · rw [if_pos he]
      exact ⟨rfl, rfl, rfl⟩
    · rw [if_neg he]
      cases n with
      | ok => exact ⟨rfl, rfl, rfl⟩
      | raises => exact ⟨rfl, rfl, rfl⟩

/-- Along any sequence of post-handshake operations, the wire log's
Request ids stay decimal encodings of a strictly increasing integer
sequence bounded by the id counter. -/
theorem runOps_ids (ops : List ClientOp) :
    ∀ (st : ClientState) (ks : List Nat), st.processStarted = true →
      sentRequestIds st = ks.map toString → List.Pairwise (· < ·) ks →
      (∀ i ∈ ks, i ≤ st.message_id) →
      ∃ new : List Nat, sentRequestIds (runOps st ops) = (ks ++ new).map toString ∧
        List.Pairwise (· < ·) (ks ++ new) := by
  induction ops with
  | nil =>
    intro st ks _ hids hpw _
    exact ⟨[], by simpa using hids, by simpa using hpw⟩
  | cons op rest ih =>
    intro st ks hs hids hpw hb
    have hstep : ∀ (m : MCPMessage) (w : ReadResult), m.id = none →
        ∃ new : List Nat,
          sentRequestIds (runOps (MCPClient.send_request st m w).1 rest) =
            ((ks ++ [st.message_id + 1]) ++ new).map toString ∧
          List.Pairwise (· < ·) ((ks ++ [st.message_id + 1]) ++ new) := by
      intro m w hid
      obtain ⟨h1, h2, h3⟩ := send_request_ids_step st m w hid hs
      refine ih (MCPClient.send_request st m w).1 (ks ++ [st.message_id + 1]) h3 ?_ ?_ ?_
      · rw [h1, hids, List.map_append]
        rfl
      · rw [List.pairwise_append]
        refine ⟨hpw, by simp, ?_⟩
        intro x hx y hy
        simp only [List.mem_singleton] at hy
        subst hy
        exact Nat.lt_succ_of_le (hb x hx)
      · intro i hi
        rw [h2]
        rcases List.mem_append.mp hi with h | h
        · exact Nat.le_succ_of_le (hb i h)
        · simp only [List.mem_singleton] at h
          subst h
          exact Nat.le_refl _
    cases op with
    | listTools w =>
      simp only [runOps]
      rw [list_tools_fst]
      obtain ⟨new, hA, hB⟩ := hstep MCPClient.tools_list_request w rfl
      exact ⟨[st.message_id + 1] ++ new, by rw [hA, List.append_assoc], by
        rw [List.append_assoc] at hB; exact hB⟩
    | callTool nm a w =>
      simp only [runOps]
      rw [call_tool_fst]
      obtain ⟨new, hA, hB⟩ := hstep (MCPClient.tools_call_request nm a) w rfl
      exact ⟨[st.message_id + 1] ++ new, by rw [hA, List.append_assoc], by
        rw [List.append_assoc] at hB; exact hB⟩

/-! The claims. -/

/-- Claim C1, counterexample: a ToolDescriptor with a name but no
`inputSchema` converts to a function schema whose `function` object has
no `parameters` entry at all — not, as claimed, a present `parameters`
field holding an empty parameter object. -/
theorem C1_counterexample :
    MCPChatBot.convert_tools_for_openai [Json.obj [("name", Json.str "echo")]] =
      some [Json.obj [("type", Json.str "function"),
        ("function", Json.obj [("name", Json.str "echo"), ("description", Json.str "")])]] ∧
    functionParameters (Json.obj [("type", Json.str "function"),
        ("function", Json.obj [("name", Json.str "echo"), ("description", Json.str "")])]) = none :=
  ⟨rfl, rfl⟩

/-- Claim C1 (amended): for every ToolDescriptor with no `inputSchema`
field, the tool bridge produces a function-call schema whose `function`
object carries only `name` and `description` — the `parameters` field is
omitted entirely rather than set to an empty parameter object. -/
theorem C1_no_inputSchema_parameters_omitted (d : List (String × Json)) (nm : Json)
    (hname : dictIdx d "name" = some nm) (hno : dictMem d "inputSchema" = false) :
    MCPChatBot.convert_tool (Json.obj d) =
      some (Json.obj [("type", Json.str "function"),
        ("function", Json.obj [("name", nm),
          ("description", dictGetD d "description" (Json.str ""))])]) := by
  unfold MCPChatBot.convert_tool
  dsimp only
  rw [hname]
  simp [hno]

/-- Claim C1, witness for the amended statement at a concrete
descriptor. -/
theorem C1_witness :
    MCPChatBot.convert_tool
        (Json.obj [("name", Json.str "echo"), ("description", Json.str "Echoes input")]) =
      some (Json.obj [("type", Json.str "function"),
        ("function", Json.obj [("name", Json.str "echo"),
          ("description", Json.str "Echoes input")])]) :=
  C1_no_inputSchema_parameters_omitted
    [("name", Json.str "echo"), ("description", Json.str "Echoes input")]
    (Json.str "echo") rfl rfl

/-- Claim C2, counterexample: a turn whose only requested tool call
carries an unparsable argument payload raises `json.JSONDecodeError` out
of `process_message` — the turn does not complete, no tool-result turn
is recorded, and only the user turn was appended. -/
theorem C2_counterexample :
    (MCPChatBot.process_message exBot "hi" exBadParseOracle).2.2
      = Except.error (PyError.jsonDecodeErr "echo") ∧
    (MCPChatBot.process_message exBot "hi" exBadParseOracle).1.conversation_history
      = [ChatMsg.user "hi"] :=
  ⟨rfl, rfl⟩

/-- Claim C2 (amended): a requested tool call whose argument payload is
not valid JSON makes `process_message` raise `json.JSONDecodeError`,
aborting the turn: no tool-result turn is appended (the conversation
keeps only the new user turn), and the child process is untouched.  The
error is caught one level up by the session loop, which reports it and
keeps the session alive. -/
theorem C2_unparsable_arguments_abort_turn (bot : BotState) (input : String) (o : TurnOracle)
    (a : AssistantMsg) (pre : List ToolCall) (bad : ToolCall) (rest : List ToolCall)
    (ts : List Json)
    (hconv : MCPChatBot.convert_tools_for_openai bot.available_tools = some ts)
    (hs : bot.mcp.processStarted = true)
    (h1 : o.resp1 = GatewayResult.ok a)
    (hsplit : a.tool_calls = pre ++ bad :: rest)
    (hpre : ∀ c ∈ pre, c.argumentsParse.isSome)
    (hbad : bad.argumentsParse = none)
    (hinp : input.isEmpty = false) :
    (MCPChatBot.process_message bot input o).2.2 =
      Except.error (PyError.jsonDecodeErr bad.function_name) ∧
    (MCPChatBot.process_message bot input o).1.conversation_history =
      bot.conversation_history ++ [ChatMsg.user input] ∧
    (MCPChatBot.process_message bot input o).1.mcp.stopCount = bot.mcp.stopCount ∧
    (run_stdio_turn bot input o).2 =
      some (StdioOutput.failure (PyError.jsonDecodeErr bad.function_name)) := by
  have hne : a.tool_calls.isEmpty = false := by
    rw [hsplit]
    cases pre <;> rfl
  have hmain :
      (MCPChatBot.process_message bot input o).2.2 =
        Except.error (PyError.jsonDecodeErr bad.function_name) ∧
      (MCPChatBot.process_message bot input o).1.conversation_history =
        bot.conversation_history ++ [ChatMsg.user input] ∧
      (MCPChatBot.process_message bot input o).1.mcp.stopCount = bot.mcp.stopCount := by
    simp only [MCPChatBot.process_message]
    rw [hconv]
    dsimp only
    rw [h1]
    dsimp only
    simp only [hne, Bool.false_eq_true, if_false]
    rw [hsplit]
    rcases hrt : MCPChatBot.runToolCalls bot.mcp (pre ++ bad :: rest) o.toolWires with ⟨mcp', r⟩
    have herr := runToolCalls_parse_error pre bot.mcp o.toolWires bad rest hpre hbad hs
    rw [hrt] at herr
    have hr : r = Except.error (PyError.jsonDecodeErr bad.function_name) := herr
    subst hr
    have hfr := runToolCalls_frame (pre ++ bad :: rest) bot.mcp o.toolWires
    rw [hrt] at hfr
    exact ⟨rfl, rfl, hfr.2⟩
  refine ⟨hmain.1, hmain.2.1, hmain.2.2, ?_⟩
  unfold run_stdio_turn
  simp only [hinp, Bool.false_eq_true, if_false]
  rcases hpm : MCPChatBot.process_message bot input o with ⟨bot', gw, r⟩
  have h22 := hmain.1
  rw [hpm] at h22
  have hr : r = Except.error (PyError.jsonDecodeErr bad.function_name) := h22
  subst hr
  rfl

/-- Claim C2, witness for the amended statement at a concrete turn. -/
theorem C2_witness :
    (MCPChatBot.process_message exBot "hi" exBadParseOracle).1.mcp.stopCount = 0 ∧
    (run_stdio_turn exBot "hi" exBadParseOracle).2 =
      some (StdioOutput.failure (PyError.jsonDecodeErr "echo")) := by
  have h := C2_unparsable_arguments_abort_turn exBot "hi" exBadParseOracle
    { content := none, tool_calls := [{ function_name := "echo", argumentsParse := none }] }
    [] { function_name := "echo", argumentsParse := none } [] []
    rfl rfl rfl rfl (by intro c hc; simp at hc) rfl rfl
  exact ⟨h.2.2.1, h.2.2.2⟩

/-- Claim C3, counterexample: with the child process spawned but the
`initialize` handshake timing out, `main` exits with status 1 while
`MCPClient.stop` has run zero times and the child process is still
alive — contradicting "stop executes exactly once on every exit path,
including a startup error raised after the child process was
spawned". -/
theorem C3_counterexample :
    (main_run {} true ReadResult.timeout MCPClient.NotifyOutcome.ok ReadResult.timeout
        Mode.stdio [] []).1.mcp.stopCount = 0 ∧
    (main_run {} true ReadResult.timeout MCPClient.NotifyOutcome.ok ReadResult.timeout
        Mode.stdio [] []).1.mcp.processStarted = true ∧
    (main_run {} true ReadResult.timeout MCPClient.NotifyOutcome.ok ReadResult.timeout
        Mode.stdio [] []).2 = 1 :=
  ⟨rfl, rfl, rfl⟩

/-- Claim C3 (amended): `MCPClient.stop` executes exactly once on every
exit path that reaches a run loop (normal end of input, user quit,
interruption, per-turn errors — the loops' `finally` performs the
teardown); but when startup raises — including an `initialize` failure
after the child was already spawned — `main` exits with status 1 without
ever invoking `stop`. -/
theorem C3_stop_once_iff_startup_succeeded (bot0 : BotState) (sp : Bool) (w : ReadResult)
    (n : MCPClient.NotifyOutcome) (lw : ReadResult) (mode : Mode)
    (events : List InteractiveEvent) (turns : List (String × TurnOracle)) :
    (main_run bot0 sp w n lw mode events turns).1.mcp.stopCount =
      (if isOkResult (MCPChatBot.start bot0 sp w n lw).2 = true
       then bot0.mcp.stopCount + 1 else bot0.mcp.stopCount) := by
  unfold main_run
  rcases hcs : MCPChatBot.start bot0 sp w n lw with ⟨bot, r⟩
  have hsc := chatbot_start_stopCount bot0 sp w n lw
  rw [hcs] at hsc
  rcases r with e | u
  · have hcond : isOkResult ((bot, Except.error e) :
        BotState × Except PyError Unit).2 = false := rfl
    rw [hcond]
    simp only [Bool.false_eq_true, if_false]
    exact hsc
  · cases u
    have hst : bot.mcp.processStarted = true := by
      have h2 := chatbot_start_ok_started bot0 sp w n lw (by rw [hcs])
      rw [hcs] at h2
      exact h2
    have hcond : isOkResult ((bot, Except.ok ()) :
        BotState × Except PyError Unit).2 = true := rfl
    rw [hcond]
    simp only [if_true]
    cases mode with
    | interactive =>
      dsimp only
      unfold run_interactive
      rw [chatbot_stop_mcp, stop_stopCount]
      have hlf := run_interactive_loop_frame events bot
      rw [hlf.1, hst, if_pos rfl, hlf.2, hsc]
    | stdio =>
      dsimp only
      unfold run_stdio
      rcases hl : run_stdio_loop bot turns with ⟨botF, outs⟩
      have hlf := run_stdio_loop_frame turns bot
      rw [hl] at hlf
      dsimp only
      rw [chatbot_stop_mcp, stop_stopCount]
      have h1 : botF.mcp.processStarted = true := hlf.1.trans hst
      rw [h1, if_pos rfl, hlf.2, hsc]

/-- When every requested call has a parsable argument payload and the
client is started, the tool-call loop raises nothing: it returns the
names in request order, one result line per call, and advances the id
counter once per call without touching the process. -/
theorem runToolCalls_ok (calls : List ToolCall) :
    ∀ (mcp : ClientState) (wires : List ReadResult), mcp.processStarted = true →
      (∀ c ∈ calls, c.argumentsParse.isSome) →
      ∃ mcp' lines, MCPChatBot.runToolCalls mcp calls wires =
          (mcp', Except.ok (calls.map (fun c => c.function_name), lines)) ∧
        mcp'.message_id = mcp.message_id + calls.length ∧
        mcp'.processStarted = true ∧ mcp'.stopCount = mcp.stopCount := by
  induction calls with
  | nil =>
    intro mcp wires hs _
    exact ⟨mcp, [], rfl, by simp, hs, rfl⟩
  | cons c rest ih =>
    intro mcp wires hs hparse
    obtain ⟨args, hargs⟩ : ∃ v, c.argumentsParse = some v := by
      rcases hc : c.argumentsParse with _ | v
      · have := hparse c (by simp)
        rw [hc] at this
        simp at this
      · exact ⟨v, rfl⟩
    simp only [MCPChatBot.runToolCalls]
    rw [hargs]
    dsimp only
    obtain ⟨st1, res, hct, hps, hsc, hid, _⟩ := call_tool_of_started mcp c.function_name args
      (wires.headD ReadResult.timeout) hs
    rw [hct]
    dsimp only
    obtain ⟨mcp2, lines2, hrt, hmid2, hps2, hsc2⟩ := ih st1 wires.tail (hps.trans hs)
      (fun d hd => hparse d (by simp [hd]))
    rw [hrt]
    dsimp only
    refine ⟨mcp2, ("Tool " ++ c.function_name ++ " result: " ++ jsonDumps res) :: lines2,
      rfl, ?_, hps2, hsc2.trans hsc⟩
    rw [hmid2, hid]
    simp only [List.length_cons]
    omega

/-- Claim C4: `initialize()` raises (so the caller aborts startup)
whenever the Response carries a truthy (populated) `error` field or no
Response arrives at all; when the Response carries a `result` and no
`error` it succeeds, even if the subsequent `initialized` Notification
write raises — that failure is only logged. -/
theorem C4_initialize_error_handling (st : ClientState) (notify : MCPClient.NotifyOutcome)
    (hs : st.processStarted = true) :
    (∀ data e, dictGet data "error" = some e → pyTruthy e = true →
        isOkResult (MCPClient.initializeConn st (ReadResult.parsed data) notify).2 = false) ∧
    (∀ wire, parseResponse wire = none →
        isOkResult (MCPClient.initializeConn st wire notify).2 = false) ∧
    (∀ data, (dictGet data "result").isSome → dictGet data "error" = none →
        (MCPClient.initializeConn st (ReadResult.parsed data) notify).2 = Except.ok ()) := by
  refine ⟨?_, ?_, ?_⟩
  · intro data e he htr
    unfold MCPClient.initializeConn
    rw [send_request_of_started st (MCPClient.init_request st) (ReadResult.parsed data) hs]
    dsimp only [parseResponse]
    simp only [pyTruthyOpt, he, htr]
    rfl
  · intro wire hnone
    unfold MCPClient.initializeConn
    rw [send_request_of_started st (MCPClient.init_request st) wire hs]
    rw [hnone]
    rfl
  · intro data _ herr
    unfold MCPClient.initializeConn
    rw [send_request_of_started st (MCPClient.init_request st) (ReadResult.parsed data) hs]
    dsimp only [parseResponse]
    simp only [pyTruthyOpt, herr]
    cases notify <;> rfl

/-- Claim C4, witness: a populated error object is fatal, a timeout is
fatal, and a `result: {}` Response succeeds even when the notification
write raises. -/
theorem C4_witness :
    isOkResult (MCPClient.initializeConn exClient
        (ReadResult.parsed [("error", Json.obj [("code", Json.num (-1)), ("message", Json.str "boom")])])
        MCPClient.NotifyOutcome.ok).2 = false ∧
    isOkResult (MCPClient.initializeConn exClient ReadResult.timeout
        MCPClient.NotifyOutcome.ok).2 = false ∧
    (MCPClient.initializeConn exClient (ReadResult.parsed [("result", Json.obj [])])
        MCPClient.NotifyOutcome.raises).2 = Except.ok () :=
  ⟨(C4_initialize_error_handling exClient MCPClient.NotifyOutcome.ok rfl).1
      [("error", Json.obj [("code", Json.num (-1)), ("message", Json.str "boom")])]
      (Json.obj [("code", Json.num (-1)), ("message", Json.str "boom")]) rfl rfl,
   (C4_initialize_error_handling exClient MCPClient.NotifyOutcome.ok rfl).2.1
      ReadResult.timeout rfl,
   (C4_initialize_error_handling exClient MCPClient.NotifyOutcome.raises rfl).2.2
      [("result", Json.obj [])] rfl rfl⟩

/-- Claim C5: starting from a fresh session, the `initialize` Request is
sent with id `"0"`, and the ids of all Requests written afterwards — in
any order of `tools/list` and `tools/call` operations — are the decimal
encodings of a strictly increasing integer sequence; read as integers,
every later Request id exceeds every earlier one, and in particular the
id reserved by `initialize`. -/
theorem C5_request_ids_strictly_increasing (w : ReadResult) (n : MCPClient.NotifyOutcome)
    (ops : List ClientOp) :
    ∃ (ks : List Nat) (t : List Nat),
      sentRequestIds (runOps (MCPClient.initializeConn exClient w n).1 ops) = ks.map toString ∧
      ks = 0 :: t ∧
      List.Pairwise (· < ·) ks := by
  obtain ⟨hids, hmid, hst⟩ := initializeConn_ids w n
  obtain ⟨new, h1, h2⟩ := runOps_ids ops (MCPClient.initializeConn exClient w n).1 [0] hst
    (by simpa using hids) (by simp)
    (by
      intro i hi
      simp only [List.mem_singleton] at hi
      subst hi
      rw [hmid]
      exact Nat.zero_le 1)
  exact ⟨[0] ++ new, new, h1, rfl, h2⟩

/-- Claim C6: a Request whose read side hits the fixed 10-second
deadline makes `send_request` return the "no response" outcome (Python
`None`) instead of blocking or raising; the outcome is non-fatal at the
call sites — `call_tool` turns it into a ToolError dict and `list_tools`
into the empty tool list. -/
theorem C6_timeout_yields_no_response (st : ClientState) (m : MCPMessage)
    (hs : st.processStarted = true) :
    (MCPClient.send_request st m ReadResult.timeout).2 = Except.ok none ∧
    (∀ (n : String) (a : Json), (MCPClient.call_tool st n a ReadResult.timeout).2 =
        Except.ok (some (Json.obj [("error", Json.str "No response")]))) ∧
    (MCPClient.list_tools st ReadResult.timeout).2 = Except.ok [] := by
  refine ⟨?_, ?_, ?_⟩
  · rw [send_request_of_started st m ReadResult.timeout hs]
    rfl
  · intro n a
    unfold MCPClient.call_tool
    rw [send_request_of_started st (MCPClient.tools_call_request n a) ReadResult.timeout hs]
    rfl
  · unfold MCPClient.list_tools
    rw [send_request_of_started st MCPClient.tools_list_request ReadResult.timeout hs]
    rfl

/-- Claim C6, witness at a concrete started client. -/
theorem C6_witness :
    (MCPClient.send_request exClient MCPClient.tools_list_request ReadResult.timeout).2 =
      Except.ok none ∧
    (MCPClient.call_tool exClient "echo" (Json.obj []) ReadResult.timeout).2 =
      Except.ok (some (Json.obj [("error", Json.str "No response")])) ∧
    (MCPClient.list_tools exClient ReadResult.timeout).2 = Except.ok [] :=
  ⟨(C6_timeout_yields_no_response exClient MCPClient.tools_list_request rfl).1,
   (C6_timeout_yields_no_response exClient MCPClient.tools_list_request rfl).2.1 "echo" (Json.obj []),
   (C6_timeout_yields_no_response exClient MCPClient.tools_list_request rfl).2.2⟩

/-- Claim C7: `call_tool` turns a truthy Response error, a timeout, and
a malformed response into a ToolError dict carrying the error text, and
never raises; the orchestrator records the result line as a tool-result
turn, the turn still completes with the follow-up response's content,
and the child process is not terminated (the client's teardown count and
started flag are unchanged). -/
theorem C7_tool_errors_embedded_not_fatal (st : ClientState) (nm0 : String) (a0 : Json)
    (hs0 : st.processStarted = true) :
    (∀ data e, dictGet data "error" = some e → pyTruthy e = true →
        (MCPClient.call_tool st nm0 a0 (ReadResult.parsed data)).2 =
          Except.ok (some (Json.obj [("error", Json.str (pyStr e))]))) ∧
    (MCPClient.call_tool st nm0 a0 ReadResult.timeout).2 =
      Except.ok (some (Json.obj [("error", Json.str "No response")])) ∧
    (MCPClient.call_tool st nm0 a0 ReadResult.malformed).2 =
      Except.ok (some (Json.obj [("error", Json.str "No response")])) ∧
    (∀ (bot : BotState) (input : String) (nm : String) (args : Json) (w : ReadResult)
        (content1 : Option String) (fm : AssistantMsg) (ts : List Json)
        (mcp1 : ClientState) (res : Option Json),
      bot.mcp.processStarted = true →
      MCPChatBot.convert_tools_for_openai bot.available_tools = some ts →
      MCPClient.call_tool bot.mcp nm args w = (mcp1, Except.ok res) →
      (MCPChatBot.process_message bot input
          (singleCallOracle content1 nm args w fm)).2.2 = Except.ok fm.content ∧
      (MCPChatBot.process_message bot input
          (singleCallOracle content1 nm args w fm)).1.conversation_history =
        bot.conversation_history ++
          [ChatMsg.user input,
           ChatMsg.assistant (singleCallAssistant content1 nm args),
           ChatMsg.user ("Tool results:\n" ++
             String.intercalate "\n" ["Tool " ++ nm ++ " result: " ++ jsonDumps res]),
           ChatMsg.assistant fm] ∧
      (MCPChatBot.process_message bot input
          (singleCallOracle content1 nm args w fm)).1.mcp = mcp1 ∧
      mcp1.stopCount = bot.mcp.stopCount ∧
      mcp1.processStarted = bot.mcp.processStarted) := by
  refine ⟨?_, ?_, ?_, ?_⟩
  · intro data e he htr
    unfold MCPClient.call_tool
    rw [send_request_of_started st (MCPClient.tools_call_request nm0 a0)
      (ReadResult.parsed data) hs0]
    dsimp only [parseResponse]
    simp only [pyTruthyOpt, he, htr]
    rfl
  · unfold MCPClient.call_tool
    rw [send_request_of_started st (MCPClient.tools_call_request nm0 a0) ReadResult.timeout hs0]
    rfl
  · unfold MCPClient.call_tool
    rw [send_request_of_started st (MCPClient.tools_call_request nm0 a0) ReadResult.malformed hs0]
    rfl
  · intro bot input nm args w content1 fm ts mcp1 res hs hconv hct
    have hf := call_tool_frame bot.mcp nm args w
    rw [hct] at hf
    simp only [MCPChatBot.process_message, singleCallOracle, singleCallAssistant]
    rw [hconv]
    dsimp only
    simp only [MCPChatBot.runToolCalls, List.headD, List.tail]
    rw [hct]
    dsimp only
    simp only [List.isEmpty_cons, Bool.false_eq_true, if_false]
    refine ⟨trivial, ?_, trivial, hf.2, hf.1⟩
    simp [singleCallAssistant]

/-- Claim C7, witness: a concrete Response error becomes a ToolError
dict, and a concrete one-call turn completes after a tool timeout with
the tool-result turn recorded and the teardown count untouched. -/
theorem C7_witness :
    (MCPClient.call_tool exClient "echo" (Json.obj [])
        (ReadResult.parsed [("id", Json.str "2"), ("error", Json.str "boom")])).2 =
      Except.ok (some (Json.obj [("error", Json.str "boom")])) ∧
    (MCPChatBot.process_message exBot "hi"
        (singleCallOracle none "echo" (Json.obj []) ReadResult.timeout
          { content := some "done" })).2.2 = Except.ok (some "done") ∧
    (MCPChatBot.process_message exBot "hi"
        (singleCallOracle none "echo" (Json.obj []) ReadResult.timeout
          { content := some "done" })).1.mcp.stopCount = 0 := by
  have ha := (C7_tool_errors_embedded_not_fatal exClient "echo" (Json.obj []) rfl).1
    [("id", Json.str "2"), ("error", Json.str "boom")] (Json.str "boom") rfl rfl
  have hd := (C7_tool_errors_embedded_not_fatal exClient "echo" (Json.obj []) rfl).2.2.2
    exBot "hi" "echo" (Json.obj []) ReadResult.timeout none { content := some "done" }
    [] _ _ rfl rfl rfl
  refine ⟨ha, hd.1, ?_⟩
  rw [hd.2.2.1]
  exact hd.2.2.2.1

/-- Claim C8: when the first gateway response requests tool calls, the
turn issues exactly one further gateway call, with tools disabled
(`tools` argument absent), and returns that second response's content as
the terminal response; the second response's own tool calls are never
processed — the client sends exactly one `tools/call` per requested call
of the first response and nothing more. -/
theorem C8_one_tool_round_trip (bot : BotState) (input : String) (o : TurnOracle)
    (a : AssistantMsg) (ts : List Json)
    (hconv : MCPChatBot.convert_tools_for_openai bot.available_tools = some ts)
    (hs : bot.mcp.processStarted = true)
    (h1 : o.resp1 = GatewayResult.ok a)
    (hne : a.tool_calls ≠ [])
    (hparse : ∀ c ∈ a.tool_calls, c.argumentsParse.isSome) :
    ((MCPChatBot.process_message bot input o).2.1.map fun c => c.tools).length = 2 ∧
    ((MCPChatBot.process_message bot input o).2.1.map fun c => c.tools).getLast? = some none ∧
    (MCPChatBot.process_message bot input o).1.mcp.message_id =
      bot.mcp.message_id + a.tool_calls.length ∧
    (∀ e, o.resp2 = GatewayResult.err e →
        (MCPChatBot.process_message bot input o).2.2 =
          Except.ok (some ("Error in final response: " ++ e))) ∧
    (∀ fm, o.resp2 = GatewayResult.ok fm →
        (MCPChatBot.process_message bot input o).2.2 = Except.ok fm.content) := by
  have hemp : a.tool_calls.isEmpty = false := by
    rcases hcalls : a.tool_calls with _ | ⟨c, cs⟩
    · exact absurd hcalls hne
    · rfl
  simp only [MCPChatBot.process_message]
  rw [hconv]
  dsimp only
  rw [h1]
  dsimp only
  simp only [hemp, Bool.false_eq_true, if_false]
  obtain ⟨mcp', lines, hrt, hmid, _, _⟩ := runToolCalls_ok a.tool_calls bot.mcp o.toolWires hs hparse
  rw [hrt]
  dsimp only
  rcases hr2 : o.resp2 with e2 | fm
  · refine ⟨rfl, rfl, hmid, ?_, ?_⟩
    · intro e he
      injection he with h
      subst h
      rfl
    · intro fm hfm
      cases hfm
  · refine ⟨rfl, rfl, hmid, ?_, ?_⟩
    · intro e he
      cases he
    · intro fm2 hfm
      injection hfm with h
      subst h
      rfl

/-- Claim C8, witness: a concrete one-call turn whose second gateway
response itself requests a tool call — the gateway is called exactly
twice, the second call has tools disabled, the second response's tool
request is not executed (the id counter advanced only once), and its
content is the terminal response. -/
theorem C8_witness :
    ((MCPChatBot.process_message exBot "hi"
        (singleCallOracle none "echo" (Json.obj []) ReadResult.timeout
          (singleCallAssistant (some "done") "echo" (Json.obj [])))).2.1.map fun c => c.tools).length = 2 ∧
    ((MCPChatBot.process_message exBot "hi"
        (singleCallOracle none "echo" (Json.obj []) ReadResult.timeout
          (singleCallAssistant (some "done") "echo" (Json.obj [])))).2.1.map fun c => c.tools).getLast? = some none ∧
    (MCPChatBot.process_message exBot "hi"
        (singleCallOracle none "echo" (Json.obj []) ReadResult.timeout
          (singleCallAssistant (some "done") "echo" (Json.obj [])))).1.mcp.message_id = 1 ∧
    (MCPChatBot.process_message exBot "hi"
        (singleCallOracle none "echo" (Json.obj []) ReadResult.timeout
          (singleCallAssistant (some "done") "echo" (Json.obj [])))).2.2 =
      Except.ok (some "done") := by
  have h := C8_one_tool_round_trip exBot "hi"
    (singleCallOracle none "echo" (Json.obj []) ReadResult.timeout
      (singleCallAssistant (some "done") "echo" (Json.obj [])))
    (singleCallAssistant none "echo" (Json.obj [])) [] rfl rfl rfl
    (by intro hx; cases hx)
    (by
      intro c hc
      simp [singleCallAssistant] at hc
      subst hc
      rfl)
  exact ⟨h.1, h.2.1, h.2.2.1,
    h.2.2.2.2 (singleCallAssistant (some "done") "echo" (Json.obj [])) rfl⟩

/-- Membership in a single optional serialized entry. -/
theorem mem_optEntry (k k' : String) (v : Json) (o : Option Json) :
    (k, v) ∈ optEntry k' o ↔ k = k' ∧ o = some v := by
  cases o with
  | none => simp [optEntry]
  | some x =>
    simp only [optEntry, List.mem_singleton, Prod.mk.injEq, Option.some.injEq]
    constructor
    · rintro ⟨h1, h2⟩
      exact ⟨h1, h2.symm⟩
    · rintro ⟨h1, h2⟩
      exact ⟨h1, h2.symm⟩

/-- The serialized wire object holds exactly the message's non-`None`
fields: an entry `(k, v)` appears iff field `k` of the message is set to
`v`. -/
theorem mem_serializeFields (m : MCPMessage) (k : String) (v : Json) :
    (k, v) ∈ serializeFields m ↔ m.field k = some v := by
  unfold serializeFields MCPMessage.field
  simp only [List.mem_append, mem_optEntry, or_assoc]
  constructor
  · rintro (⟨rfl, h⟩ | ⟨rfl, h⟩ | ⟨rfl, h⟩ | ⟨rfl, h⟩ | ⟨rfl, h⟩ | ⟨rfl, h⟩) <;> simp [h]
  · intro h
    by_cases h1 : k = "jsonrpc"
    · subst h1
      rw [if_pos rfl] at h
      exact Or.inl ⟨rfl, h⟩
    rw [if_neg h1] at h
    by_cases h2 : k = "id"
    · subst h2
      rw [if_pos rfl] at h
      exact Or.inr (Or.inl ⟨rfl, h⟩)
    rw [if_neg h2] at h
    by_cases h3 : k = "method"
    · subst h3
      rw [if_pos rfl] at h
      exact Or.inr (Or.inr (Or.inl ⟨rfl, h⟩))
    rw [if_neg h3] at h
    by_cases h4 : k = "params"
    · subst h4
      rw [if_pos rfl] at h
      exact Or.inr (Or.inr (Or.inr (Or.inl ⟨rfl, h⟩)))
    rw [if_neg h4] at h
    by_cases h5 : k = "result"
    · subst h5
      rw [if_pos rfl] at h
      exact Or.inr (Or.inr (Or.inr (Or.inr (Or.inl ⟨rfl, h⟩))))
    rw [if_neg h5] at h
    by_cases h6 : k = "error"
    · subst h6
      rw [if_pos rfl] at h
      exact Or.inr (Or.inr (Or.inr (Or.inr (Or.inr ⟨rfl, h⟩))))
    rw [if_neg h6] at h
    cases h

/-- Claim C9: every Request written by `send_request` (a message with
the default `"2.0"` protocol tag, a method, and no result or error)
serializes to a wire object that contains `jsonrpc: "2.0"` and the
non-null method, omits `result` and `error`, and — in general — holds an
entry exactly when the corresponding field is set, so absent fields are
omitted rather than emitted as null. -/
theorem C9_request_serialization (st : ClientState) (m : MCPMessage) (w : ReadResult)
    (hs : st.processStarted = true)
    (hrpc : m.jsonrpc = some (Json.str "2.0"))
    (hm : m.method.isSome = true)
    (hr : m.result = none)
    (he : m.error = none) :
    ∃ out, (MCPClient.send_request st m w).1.sent = st.sent ++ [out] ∧
      ("jsonrpc", Json.str "2.0") ∈ serializeFields out ∧
      (∃ v, out.method = some v ∧ ("method", v) ∈ serializeFields out) ∧
      (∀ v, ("result", v) ∉ serializeFields out) ∧
      (∀ v, ("error", v) ∉ serializeFields out) ∧
      (∀ k v, (k, v) ∈ serializeFields out ↔ out.field k = some v) := by
  rw [send_request_of_started st m w hs]
  obtain ⟨mv, hmv⟩ := Option.isSome_iff_exists.mp hm
  rcases hmid : m.id with _ | idv
  · refine ⟨{ m with id := some (Json.str (toString (st.message_id + 1))) }, ?_, ?_, ?_, ?_, ?_, ?_⟩
    · simp [hmid]
    · rw [mem_serializeFields]
      simp [MCPMessage.field, hrpc]
    · exact ⟨mv, by simp [hmv], by rw [mem_serializeFields]; simp [MCPMessage.field, hmv]⟩
    · intro v
      rw [mem_serializeFields]
      simp [MCPMessage.field, hr]
    · intro v
      rw [mem_serializeFields]
      simp [MCPMessage.field, he]
    · intro k v
      exact mem_serializeFields _ k v
  · refine ⟨m, ?_, ?_, ?_, ?_, ?_, ?_⟩
    · simp [hmid]
    · rw [mem_serializeFields]
      simp [MCPMessage.field, hrpc]
    · exact ⟨mv, hmv, by rw [mem_serializeFields]; simp [MCPMessage.field, hmv]⟩
    · intro v
      rw [mem_serializeFields]
      simp [MCPMessage.field, hr]
    · intro v
      rw [mem_serializeFields]
      simp [MCPMessage.field, he]
    · intro k v
      exact mem_serializeFields _ k v

/-- Claim C9, witness: the `tools/list` Request on a fresh started
client. -/
theorem C9_witness :
    ∃ out, (MCPClient.send_request exClient MCPClient.tools_list_request ReadResult.timeout).1.sent =
        exClient.sent ++ [out] ∧
      ("jsonrpc", Json.str "2.0") ∈ serializeFields out ∧
      (∃ v, out.method = some v ∧ ("method", v) ∈ serializeFields out) ∧
      (∀ v, ("result", v) ∉ serializeFields out) ∧
      (∀ v, ("error", v) ∉ serializeFields out) ∧
      (∀ k v, (k, v) ∈ serializeFields out ↔ out.field k = some v) :=
  C9_request_serialization exClient MCPClient.tools_list_request ReadResult.timeout
    rfl rfl rfl rfl rfl

/-- A conversation turn never touches the `_previous_tools` attribute
(only the stdio loop writes it). -/
theorem process_message_previousTools (bot : BotState) (input : String) (o : TurnOracle) :
    (MCPChatBot.process_message bot input o).1.previousTools = bot.previousTools := by
  simp only [MCPChatBot.process_message]
  rcases hconv : MCPChatBot.convert_tools_for_openai bot.available_tools with _ | ts
  · simp
  · dsimp only
    rcases hr1 : o.resp1 with e | a
    · simp
    · dsimp only
      by_cases hemp : a.tool_calls.isEmpty = true
      · simp [hemp]
      · simp only [hemp, Bool.false_eq_true, if_false]
        rcases hrt : MCPChatBot.runToolCalls bot.mcp a.tool_calls o.toolWires with ⟨mcp', r⟩
        rcases r with pe | pair
        · rfl
        · rcases pair with ⟨names, lines⟩
          dsimp only
          rcases hr2 : o.resp2 with e2 | fm
          · rfl
          · rfl

/-- Claim C10: in stdio mode, a successful turn reports as `tools_used`
exactly the set difference between the deduplicated cumulative list of
all tools ever used in the session and that set as recorded at the
previous turn; consequently a tool already used in an earlier turn never
reappears in the current turn's `tools_used`, and `_previous_tools` is
updated to the new cumulative set. -/
theorem C10_tools_used_is_set_difference (bot : BotState) (line : String) (o : TurnOracle)
    (bot' : BotState) (resp : Option String) (used avail : List String)
    (h : run_stdio_turn bot line o = (bot', some (StdioOutput.success resp used avail))) :
    used.toFinset = bot'.tools_used_in_conversation.toFinset \ bot.previousTools.toFinset ∧
    (∀ t ∈ bot.previousTools, t ∉ used) ∧
    bot'.previousTools = bot'.tools_used_in_conversation.dedup := by
  unfold run_stdio_turn at h
  by_cases hl : line.isEmpty = true
  · rw [if_pos hl] at h
    injection h with h1 h2
    cases h2
  · rw [if_neg hl] at h
    rcases hpm : MCPChatBot.process_message bot line o with ⟨bot1, gw, r⟩
    have hprev := process_message_previousTools bot line o
    rw [hpm] at hprev
    rw [hpm] at h
    rcases r with e | resp1
    · injection h with h1 h2
      injection h2 with h3
      cases h3
    · injection h with h1 h2
      injection h2 with h3
      injection h3 with hresp hused havail
      subst h1
      subst hused
      dsimp only at hprev ⊢
      rw [hprev]
      refine ⟨?_, ?_, rfl⟩
      · ext t
        simp [List.mem_dedup, List.contains, Finset.mem_sdiff]
      · intro t ht hmem
        simp [List.mem_dedup, List.contains] at hmem
        exact hmem.2 ht

/-- Claim C10, witness: a first successful stdio turn using `echo`
reports exactly `echo`, and records the new cumulative set. -/
theorem C10_witness :
    (["echo"] : List String).toFinset =
      (run_stdio_turn exBot "hi" (singleCallOracle none "echo" (Json.obj []) ReadResult.timeout
          { content := some "done" })).1.tools_used_in_conversation.toFinset \
        exBot.previousTools.toFinset ∧
    (run_stdio_turn exBot "hi" (singleCallOracle none "echo" (Json.obj []) ReadResult.timeout
        { content := some "done" })).1.previousTools =
      (run_stdio_turn exBot "hi" (singleCallOracle none "echo" (Json.obj []) ReadResult.timeout
        { content := some "done" })).1.tools_used_in_conversation.dedup := by
  have h := C10_tools_used_is_set_difference exBot "hi"
    (singleCallOracle none "echo" (Json.obj []) ReadResult.timeout { content := some "done" })
    _ (some "done") ["echo"] [] rfl
  exact ⟨h.1, h.2.2⟩

end MCPBot
